import Mathlib

/-!
Shallow embedding of `src/spotipy/objects/token.py` (aiospotify).

The module defines two credential holders, `ClientCredentials` and
`UserCredentials`, each with a constructor that wraps a parsed JSON token
payload, a pure `is_expired` check, an in-place `refresh`, and a factory
class method.  We embed:

* the parsed JSON body of a token-endpoint response as a record of
  optional fields (`JsonBody`);  `dict.get("error")` truthiness is a
  non-empty string;
* Python exceptions relevant to this module as `PyError`
  (`KeyError` from an unchecked `data["k"]` access, `AuthenticationError`
  raised by the error check, and `ValidationError`, which the spec talks
  about but which the source never raises);
* `time.time()` as an explicit rational-number parameter `now`
  (timestamps are floats in the source; any linearly ordered field works
  for the comparisons performed);
* mutation as explicit state passing: `refresh` returns the outcome
  together with the post-call state, threading the partially mutated
  record through each fallible field access in source order, so that the
  state left behind by a `KeyError` mid-way through the success path is
  modelled exactly.  The assignments to `_expires_in` and
  `_last_authorized_time` are adjacent in the source with no fallible or
  suspending operation between them, so they appear as a single record
  update.
-/

namespace Spotipy

/-- Python exceptions this module can be discussed in terms of.
`validationError` never arises from the embedded code; it is in the
vocabulary because the specification mentions it. -/
inductive PyError where
  | keyError (key : String)
  | authenticationError
  | validationError
deriving DecidableEq, Repr

/-- The parsed JSON body of a token-endpoint response, as the fields this
module ever reads.  `none` models an absent key. -/
structure JsonBody where
  error : Option String := none
  access_token : Option String := none
  token_type : Option String := none
  expires_in : Option Int := none
  scope : Option String := none
  refresh_token : Option String := none
deriving DecidableEq, Repr

/-- `data.get("error")` used as a condition: truthy iff the key is
present with a non-empty string value. -/
def JsonBody.truthyError (b : JsonBody) : Bool :=
  match b.error with
  | some s => s ≠ ""
  | none => false

/-- An HTTP response from the token endpoint: transport status code plus
parsed JSON body.  The embedded code never inspects `status`. -/
structure HttpResponse where
  status : Nat
  body : JsonBody
deriving DecidableEq, Repr

/-- State of a `ClientCredentials` instance: its instance attributes. -/
structure ClientCredentials where
  access_token : String
  token_type : String
  expires_in : Int
  client_id : String
  client_secret : String
  last_authorized_time : ℚ
deriving DecidableEq, Repr

namespace ClientCredentials

/-- `ClientCredentials.__init__`: reads `access_token`, `token_type`,
`expires_in` from the payload (unchecked `data[...]` accesses, in source
order), stores the client identifiers, and records the current time. -/
def construct (data : JsonBody) (client_id client_secret : String) (now : ℚ) :
    Except PyError ClientCredentials :=
  match data.access_token with
  | none => .error (.keyError "access_token")
  | some a =>
    match data.token_type with
    | none => .error (.keyError "token_type")
    | some t =>
      match data.expires_in with
      | none => .error (.keyError "expires_in")
      | some e =>
        .ok { access_token := a, token_type := t, expires_in := e,
              client_id := client_id, client_secret := client_secret,
              last_authorized_time := now }

/-- `ClientCredentials.is_expired`:
`(time.time() - self._last_authorized_time) >= self.expires_in`. -/
def is_expired (c : ClientCredentials) (now : ℚ) : Bool :=
  decide ((now - c.last_authorized_time) ≥ (c.expires_in : ℚ))

/-- `ClientCredentials.refresh`: checks `data.get("error")` before any
mutation, then assigns `_access_token`, `_token_type`, `_expires_in`,
`_last_authorized_time` in source order.  Returns the outcome together
with the post-call state (partially mutated if a `KeyError` interrupts
the assignment sequence). -/
def refresh (c : ClientCredentials) (response : HttpResponse) (now : ℚ) :
    Except PyError Unit × ClientCredentials :=
  let data := response.body
  if data.truthyError then (.error .authenticationError, c)
  else
    match data.access_token with
    | none => (.error (.keyError "access_token"), c)
    | some a =>
      let c1 := { c with access_token := a }
      match data.token_type with
      | none => (.error (.keyError "token_type"), c1)
      | some t =>
        let c2 := { c1 with token_type := t }
        match data.expires_in with
        | none => (.error (.keyError "expires_in"), c2)
        | some e =>
          (.ok (), { c2 with expires_in := e, last_authorized_time := now })

/-- `ClientCredentials.from_client_secret`: error check on the response
body, then construction of a fresh record from it. -/
def from_client_secret (client_id client_secret : String)
    (response : HttpResponse) (now : ℚ) : Except PyError ClientCredentials :=
  if response.body.truthyError then .error .authenticationError
  else construct response.body client_id client_secret now

end ClientCredentials

/-- State of a `UserCredentials` instance: its instance attributes.
`refresh_token` is read with `data.get(...)`, hence optional. -/
structure UserCredentials where
  access_token : String
  token_type : String
  expires_in : Int
  scope : String
  refresh_token : Option String
  client_id : String
  client_secret : String
  last_authorized_time : ℚ
deriving DecidableEq, Repr

namespace UserCredentials

/-- `UserCredentials.__init__`: reads `access_token`, `token_type`,
`expires_in`, `scope` (unchecked `data[...]` accesses, in source order),
reads `refresh_token` with `data.get` (no failure), stores the client
identifiers, and records the current time. -/
def construct (data : JsonBody) (client_id client_secret : String) (now : ℚ) :
    Except PyError UserCredentials :=
  match data.access_token with
  | none => .error (.keyError "access_token")
  | some a =>
    match data.token_type with
    | none => .error (.keyError "token_type")
    | some t =>
      match data.expires_in with
      | none => .error (.keyError "expires_in")
      | some e =>
        match data.scope with
        | none => .error (.keyError "scope")
        | some s =>
          .ok { access_token := a, token_type := t, expires_in := e,
                scope := s, refresh_token := data.refresh_token,
                client_id := client_id, client_secret := client_secret,
                last_authorized_time := now }

/-- `UserCredentials.is_expired`:
`(time.time() - self._last_authorized_time) >= self.expires_in`. -/
def is_expired (c : UserCredentials) (now : ℚ) : Bool :=
  decide ((now - c.last_authorized_time) ≥ (c.expires_in : ℚ))

/-- `UserCredentials.refresh`: checks `data.get("error")` before any
mutation, then assigns `_access_token`, `_token_type`, `_scope`,
`_expires_in`, `_last_authorized_time` in source order.  The
`refresh_token` attribute is never assigned.  Returns the outcome
together with the post-call state. -/
def refresh (c : UserCredentials) (response : HttpResponse) (now : ℚ) :
    Except PyError Unit × UserCredentials :=
  let data := response.body
  if data.truthyError then (.error .authenticationError, c)
  else
    match data.access_token with
    | none => (.error (.keyError "access_token"), c)
    | some a =>
      let c1 := { c with access_token := a }
      match data.token_type with
      | none => (.error (.keyError "token_type"), c1)
      | some t =>
        let c2 := { c1 with token_type := t }
        match data.scope with
        | none => (.error (.keyError "scope"), c2)
        | some s =>
          let c3 := { c2 with scope := s }
          match data.expires_in with
          | none => (.error (.keyError "expires_in"), c3)
          | some e =>
            (.ok (), { c3 with expires_in := e, last_authorized_time := now })

/-- `UserCredentials.from_refresh_token`: error check on the response
body, then `data["refresh_token"] = refresh_token` before construction,
so the caller-supplied refresh token overrides whatever the response
contained. -/
def from_refresh_token (client_id client_secret : String)
    (response : HttpResponse) (refresh_token : String) (now : ℚ) :
    Except PyError UserCredentials :=
  if response.body.truthyError then .error .authenticationError
  else construct { response.body with refresh_token := some refresh_token }
    client_id client_secret now

end UserCredentials

/-! ### Concrete sample data (for evaluating the theorems on inputs) -/

/-- A `ClientCredentials` instance as it might exist before a refresh. -/
def cEx : ClientCredentials :=
  { access_token := "AT0", token_type := "Bearer", expires_in := 3600,
    client_id := "cid", client_secret := "sec", last_authorized_time := 50 }

/-- A `UserCredentials` instance holding refresh token "RT1". -/
def uEx : UserCredentials :=
  { access_token := "AT0", token_type := "Bearer", expires_in := 3600,
    scope := "user-read", refresh_token := some "RT1",
    client_id := "cid", client_secret := "sec", last_authorized_time := 50 }

/-- The token endpoint's `invalid_grant` failure body. -/
def errBody : JsonBody := { error := some "invalid_grant" }

/-- A successful client-credentials response body. -/
def okBodyCC : JsonBody :=
  { access_token := some "AT1", token_type := some "Bearer",
    expires_in := some 3600 }

/-- A successful refresh-token response body with no refresh_token. -/
def okBodyUC : JsonBody :=
  { access_token := some "AT2", token_type := some "Bearer",
    expires_in := some 3600, scope := some "user-read" }

/-- A response body with a zero lifetime. -/
def zeroBodyUC : JsonBody :=
  { access_token := some "AT1", token_type := some "Bearer",
    expires_in := some 0, scope := some "user-read" }

/-- The record produced from `okBodyCC` at time 100. -/
def cOut : ClientCredentials :=
  { access_token := "AT1", token_type := "Bearer", expires_in := 3600,
    client_id := "cid", client_secret := "sec", last_authorized_time := 100 }

/-- The record produced from `zeroBodyUC` by `ClientCredentials.construct`
at time 100. -/
def cZero : ClientCredentials :=
  { access_token := "AT1", token_type := "Bearer", expires_in := 0,
    client_id := "cid", client_secret := "sec", last_authorized_time := 100 }

/-- The record produced from `okBodyUC` (refresh token "RT1" attached)
at time 100. -/
def uOut : UserCredentials :=
  { access_token := "AT2", token_type := "Bearer", expires_in := 3600,
    scope := "user-read", refresh_token := some "RT1",
    client_id := "cid", client_secret := "sec", last_authorized_time := 100 }

/-- The record produced from `okBodyUC` by `UserCredentials.construct`
directly (no refresh token present) at time 100. -/
def uOutC : UserCredentials :=
  { access_token := "AT2", token_type := "Bearer", expires_in := 3600,
    scope := "user-read", refresh_token := none,
    client_id := "cid", client_secret := "sec", last_authorized_time := 100 }

/-- The record produced from `zeroBodyUC` by `UserCredentials.construct`
at time 100. -/
def uZero : UserCredentials :=
  { access_token := "AT1", token_type := "Bearer", expires_in := 0,
    scope := "user-read", refresh_token := none,
    client_id := "cid", client_secret := "sec", last_authorized_time := 100 }

/-! ### Helper lemmas shared by several developments -/

/-- A successful `ClientCredentials` construction takes every token field
from the payload, the identifiers from the arguments, and stamps `now`. -/
theorem ClientCredentials.construct_ok_cc {data : JsonBody} {cid cs : String}
    {now : ℚ} {c : ClientCredentials}
    (h : ClientCredentials.construct data cid cs now = .ok c) :
    data.access_token = some c.access_token ∧
    data.token_type = some c.token_type ∧
    data.expires_in = some c.expires_in ∧
    c.client_id = cid ∧ c.client_secret = cs ∧
    c.last_authorized_time = now := by
  cases ha : data.access_token with
  | none => simp [ClientCredentials.construct, ha] at h
  | some a =>
    cases ht : data.token_type with
    | none => simp [ClientCredentials.construct, ha, ht] at h
    | some t =>
      cases he : data.expires_in with
      | none => simp [ClientCredentials.construct, ha, ht, he] at h
      | some e =>
        simp [ClientCredentials.construct, ha, ht, he] at h
        subst h
        simp [ha, ht, he]

/-- A successful `UserCredentials` construction takes every token field
from the payload (`refresh_token` via `get`, so possibly absent), the
identifiers from the arguments, and stamps `now`. -/
theorem UserCredentials.construct_ok_uc {data : JsonBody} {cid cs : String}
    {now : ℚ} {u : UserCredentials}
    (h : UserCredentials.construct data cid cs now = .ok u) :
    data.access_token = some u.access_token ∧
    data.token_type = some u.token_type ∧
    data.expires_in = some u.expires_in ∧
    data.scope = some u.scope ∧
    u.refresh_token = data.refresh_token ∧
    u.client_id = cid ∧ u.client_secret = cs ∧
    u.last_authorized_time = now := by
  cases ha : data.access_token with
  | none => simp [UserCredentials.construct, ha] at h
  | some a =>
    cases ht : data.token_type with
    | none => simp [UserCredentials.construct, ha, ht] at h
    | some t =>
      cases he : data.expires_in with
      | none => simp [UserCredentials.construct, ha, ht, he] at h
      | some e =>
        cases hs : data.scope with
        | none => simp [UserCredentials.construct, ha, ht, he, hs] at h
        | some s =>
          simp [UserCredentials.construct, ha, ht, he, hs] at h
          subst h
          simp [ha, ht, he, hs]

/-- A successful `ClientCredentials.refresh` installs the response's
token fields and stamps `now`; the identifiers are untouched. -/
theorem ClientCredentials.refresh_ok_cc {c c' : ClientCredentials}
    {resp : HttpResponse} {now : ℚ}
    (h : ClientCredentials.refresh c resp now = (.ok (), c')) :
    resp.body.access_token = some c'.access_token ∧
    resp.body.token_type = some c'.token_type ∧
    resp.body.expires_in = some c'.expires_in ∧
    c'.client_id = c.client_id ∧ c'.client_secret = c.client_secret ∧
    c'.last_authorized_time = now := by
  cases hb : resp.body.truthyError with
  | true => simp [ClientCredentials.refresh, hb] at h
  | false =>
    cases ha : resp.body.access_token with
    | none => simp [ClientCredentials.refresh, hb, ha] at h
    | some a =>
      cases ht : resp.body.token_type with
      | none => simp [ClientCredentials.refresh, hb, ha, ht] at h
      | some t =>
        cases he : resp.body.expires_in with
        | none => simp [ClientCredentials.refresh, hb, ha, ht, he] at h
        | some e =>
          simp [ClientCredentials.refresh, hb, ha, ht, he] at h
          subst h
          simp [ha, ht, he]

/-- A successful `UserCredentials.refresh` installs the response's
token fields (but not `refresh_token`) and stamps `now`; the identifiers
and the stored refresh token are untouched. -/
theorem UserCredentials.refresh_ok_uc {u u' : UserCredentials}
    {resp : HttpResponse} {now : ℚ}
    (h : UserCredentials.refresh u resp now = (.ok (), u')) :
    resp.body.access_token = some u'.access_token ∧
    resp.body.token_type = some u'.token_type ∧
    resp.body.scope = some u'.scope ∧
    resp.body.expires_in = some u'.expires_in ∧
    u'.refresh_token = u.refresh_token ∧
    u'.client_id = u.client_id ∧ u'.client_secret = u.client_secret ∧
    u'.last_authorized_time = now := by
  cases hb : resp.body.truthyError with
  | true => simp [UserCredentials.refresh, hb] at h
  | false =>
    cases ha : resp.body.access_token with
    | none => simp [UserCredentials.refresh, hb, ha] at h
    | some a =>
      cases ht : resp.body.token_type with
      | none => simp [UserCredentials.refresh, hb, ha, ht] at h
      | some t =>
        cases hs : resp.body.scope with
        | none => simp [UserCredentials.refresh, hb, ha, ht, hs] at h
        | some s =>
          cases he : resp.body.expires_in with
          | none => simp [UserCredentials.refresh, hb, ha, ht, hs, he] at h
          | some e =>
            simp [UserCredentials.refresh, hb, ha, ht, hs, he] at h
            subst h
            simp [ha, ht, hs, he]

/-- `is_expired` is false exactly at the authorization instant for a
positive lifetime. -/
theorem ClientCredentials.not_expired_at_stamp_cc {c : ClientCredentials}
    {now : ℚ} (hl : c.last_authorized_time = now) (hp : 0 < c.expires_in) :
    c.is_expired now = false := by
  simp only [ClientCredentials.is_expired, hl, decide_eq_false_iff_not, not_le,
    sub_self]
  exact_mod_cast hp

/-- `is_expired` is false exactly at the authorization instant for a
positive lifetime. -/
theorem UserCredentials.not_expired_at_stamp_uc {u : UserCredentials}
    {now : ℚ} (hl : u.last_authorized_time = now) (hp : 0 < u.expires_in) :
    u.is_expired now = false := by
  simp only [UserCredentials.is_expired, hl, decide_eq_false_iff_not, not_le,
    sub_self]
  exact_mod_cast hp

end Spotipy

/-! ### Claims -/

open Spotipy in
/-- C1: `is_expired()` on either credentials class returns `true` exactly
when the current time minus `last_authorized_time` is at least
`expires_in`.  The check is a pure function of the record and the clock:
in the embedding it consumes the record and returns only a boolean, so it
can modify no field. -/
theorem C1_is_expired_iff_elapsed_at_least_lifetime
    (c : ClientCredentials) (u : UserCredentials) (now : ℚ) :
    (c.is_expired now = true ↔
      now - c.last_authorized_time ≥ (c.expires_in : ℚ)) ∧
    (u.is_expired now = true ↔
      now - u.last_authorized_time ≥ (u.expires_in : ℚ)) := by
  constructor <;>
    simp [Spotipy.ClientCredentials.is_expired,
      Spotipy.UserCredentials.is_expired]

open Spotipy in
/-- C2: a token-endpoint response whose JSON body carries
`error = "invalid_grant"` makes `refresh` on either class fail with
AuthenticationError while returning the record with every stored field
exactly as it was, and makes both factories fail with
AuthenticationError. -/
theorem C2_invalid_grant_error_leaves_state_unmodified
    (c : ClientCredentials) (u : UserCredentials) (resp : HttpResponse)
    (now : ℚ) (cid cs rt : String)
    (h : resp.body.error = some "invalid_grant") :
    c.refresh resp now = (.error .authenticationError, c) ∧
    u.refresh resp now = (.error .authenticationError, u) ∧
    ClientCredentials.from_client_secret cid cs resp now =
      .error .authenticationError ∧
    UserCredentials.from_refresh_token cid cs resp rt now =
      .error .authenticationError := by
  have hb : resp.body.truthyError = true := by
    simp [Spotipy.JsonBody.truthyError, h]
  refine ⟨?_, ?_, ?_, ?_⟩ <;>
    simp [Spotipy.ClientCredentials.refresh, Spotipy.UserCredentials.refresh,
      Spotipy.ClientCredentials.from_client_secret,
      Spotipy.UserCredentials.from_refresh_token, hb]

open Spotipy in
/-- C2 witness: the theorem evaluated on concrete records and the concrete
`invalid_grant` response, with HTTP status 400. -/
theorem C2_invalid_grant_error_leaves_state_unmodified_witness :
    ClientCredentials.refresh cEx ⟨400, errBody⟩ 100 =
      (.error .authenticationError, cEx) ∧
    UserCredentials.refresh uEx ⟨400, errBody⟩ 100 =
      (.error .authenticationError, uEx) ∧
    ClientCredentials.from_client_secret "cid" "sec" ⟨400, errBody⟩ 100 =
      .error .authenticationError ∧
    UserCredentials.from_refresh_token "cid" "sec" ⟨400, errBody⟩ "RT1" 100 =
      .error .authenticationError :=
  C2_invalid_grant_error_leaves_state_unmodified cEx uEx ⟨400, errBody⟩ 100
    "cid" "sec" "RT1" rfl

open Spotipy in
/-- C3: `refresh` and both factories fail with AuthenticationError exactly
when the parsed JSON body contains a truthy (non-empty) `error` field; the
error check produces no other error kind, and every operation's outcome is
unchanged by replacing the HTTP status code. -/
theorem C3_authentication_error_iff_truthy_error_field
    (c : ClientCredentials) (u : UserCredentials) (resp : HttpResponse)
    (now : ℚ) (cid cs rt : String) :
    ((c.refresh resp now).1 = .error .authenticationError ↔
      resp.body.truthyError = true) ∧
    ((u.refresh resp now).1 = .error .authenticationError ↔
      resp.body.truthyError = true) ∧
    (ClientCredentials.from_client_secret cid cs resp now =
        .error .authenticationError ↔ resp.body.truthyError = true) ∧
    (UserCredentials.from_refresh_token cid cs resp rt now =
        .error .authenticationError ↔ resp.body.truthyError = true) ∧
    (∀ s : Nat,
      c.refresh ⟨s, resp.body⟩ now = c.refresh resp now ∧
      u.refresh ⟨s, resp.body⟩ now = u.refresh resp now ∧
      ClientCredentials.from_client_secret cid cs ⟨s, resp.body⟩ now =
        ClientCredentials.from_client_secret cid cs resp now ∧
      UserCredentials.from_refresh_token cid cs ⟨s, resp.body⟩ rt now =
        UserCredentials.from_refresh_token cid cs resp rt now) := by
  refine ⟨?_, ?_, ?_, ?_, fun s => ⟨rfl, rfl, rfl, rfl⟩⟩
  · cases hb : resp.body.truthyError <;>
      cases ha : resp.body.access_token <;>
      cases ht : resp.body.token_type <;>
      cases he : resp.body.expires_in <;>
      simp [Spotipy.ClientCredentials.refresh, hb, ha, ht, he]
  · cases hb : resp.body.truthyError <;>
      cases ha : resp.body.access_token <;>
      cases ht : resp.body.token_type <;>
      cases hs : resp.body.scope <;>
      cases he : resp.body.expires_in <;>
      simp [Spotipy.UserCredentials.refresh, hb, ha, ht, hs, he]
  · cases hb : resp.body.truthyError <;>
      cases ha : resp.body.access_token <;>
      cases ht : resp.body.token_type <;>
      cases he : resp.body.expires_in <;>
      simp [Spotipy.ClientCredentials.from_client_secret,
        Spotipy.ClientCredentials.construct, hb, ha, ht, he]
  · cases hb : resp.body.truthyError <;>
      cases ha : resp.body.access_token <;>
      cases ht : resp.body.token_type <;>
      cases he : resp.body.expires_in <;>
      cases hs : resp.body.scope <;>
      simp [Spotipy.UserCredentials.from_refresh_token,
        Spotipy.UserCredentials.construct, hb, ha, ht, he, hs]

open Spotipy in
/-- C4: a successful `from_refresh_token` returns a record whose stored
refresh token is exactly the caller-supplied one, even when the response
body carries no refresh_token field: the factory writes the supplied
token into the payload before construction. -/
theorem C4_from_refresh_token_stores_supplied_token
    (cid cs rt : String) (resp : HttpResponse) (now : ℚ)
    (u : UserCredentials)
    (h : UserCredentials.from_refresh_token cid cs resp rt now = .ok u) :
    u.refresh_token = some rt := by
  simp only [Spotipy.UserCredentials.from_refresh_token] at h
  cases hb : resp.body.truthyError with
  | true => simp [hb] at h
  | false =>
    rw [hb] at h
    simp only [Bool.false_eq_true, if_false] at h
    simpa using (Spotipy.UserCredentials.construct_ok_uc h).2.2.2.2.1

open Spotipy in
/-- C4 witness: the factory evaluated on a response body with no
refresh_token field still yields a record storing "RT1". -/
theorem C4_from_refresh_token_stores_supplied_token_witness :
    okBodyUC.refresh_token = none ∧
    UserCredentials.from_refresh_token "cid" "sec" ⟨200, okBodyUC⟩ "RT1" 100 =
      .ok uOut ∧
    uOut.refresh_token = some "RT1" :=
  ⟨rfl, rfl,
    C4_from_refresh_token_stores_supplied_token "cid" "sec" "RT1"
      ⟨200, okBodyUC⟩ 100 uOut rfl⟩

open Spotipy in
/-- C5: `UserCredentials.refresh` leaves the stored refresh_token exactly
as it was in every outcome and for every response body, while a
successful refresh overwrites access_token, token_type, scope,
expires_in and last_authorized_time from the response and the clock. -/
theorem C5_refresh_never_writes_refresh_token
    (u : UserCredentials) (resp : HttpResponse) (now : ℚ) :
    (u.refresh resp now).2.refresh_token = u.refresh_token ∧
    (∀ u', u.refresh resp now = (.ok (), u') →
      resp.body.access_token = some u'.access_token ∧
      resp.body.token_type = some u'.token_type ∧
      resp.body.scope = some u'.scope ∧
      resp.body.expires_in = some u'.expires_in ∧
      u'.last_authorized_time = now) := by
  constructor
  · cases hb : resp.body.truthyError <;>
      cases ha : resp.body.access_token <;>
      cases ht : resp.body.token_type <;>
      cases hs : resp.body.scope <;>
      cases he : resp.body.expires_in <;>
      simp [Spotipy.UserCredentials.refresh, hb, ha, ht, hs, he]
  · intro u' h
    obtain ⟨h1, h2, h3, h4, -, -, -, h8⟩ := Spotipy.UserCredentials.refresh_ok_uc h
    exact ⟨h1, h2, h3, h4, h8⟩

open Spotipy in
/-- C5 witness: refreshing the sample record with a body that has no
refresh_token keeps "RT1" and installs the other response fields. -/
theorem C5_refresh_never_writes_refresh_token_witness :
    (UserCredentials.refresh uEx ⟨200, okBodyUC⟩ 100).2.refresh_token =
      some "RT1" ∧
    okBodyUC.access_token = some uOut.access_token ∧
    okBodyUC.token_type = some uOut.token_type ∧
    okBodyUC.scope = some uOut.scope ∧
    okBodyUC.expires_in = some uOut.expires_in ∧
    uOut.last_authorized_time = 100 := by
  have h := C5_refresh_never_writes_refresh_token uEx ⟨200, okBodyUC⟩ 100
  have h2 := h.2 uOut rfl
  exact ⟨h.1.trans rfl, h2.1, h2.2.1, h2.2.2.1, h2.2.2.2.1, h2.2.2.2.2⟩

open Spotipy in
/-- C6: a record obtained with `expires_in > 0` from the constructor, a
factory, or a successful refresh is not expired when `is_expired` is
evaluated at the very time recorded in `last_authorized_time`. -/
theorem C6_fresh_record_not_expired
    (data : JsonBody) (cid cs rt : String) (resp : HttpResponse) (now : ℚ)
    (c0 c1 c2 c : ClientCredentials) (u0 u1 u2 u : UserCredentials) :
    (ClientCredentials.construct data cid cs now = .ok c0 →
      0 < c0.expires_in → c0.is_expired now = false) ∧
    (ClientCredentials.from_client_secret cid cs resp now = .ok c1 →
      0 < c1.expires_in → c1.is_expired now = false) ∧
    (ClientCredentials.refresh c resp now = (.ok (), c2) →
      0 < c2.expires_in → c2.is_expired now = false) ∧
    (UserCredentials.construct data cid cs now = .ok u0 →
      0 < u0.expires_in → u0.is_expired now = false) ∧
    (UserCredentials.from_refresh_token cid cs resp rt now = .ok u1 →
      0 < u1.expires_in → u1.is_expired now = false) ∧
    (UserCredentials.refresh u resp now = (.ok (), u2) →
      0 < u2.expires_in → u2.is_expired now = false) := by
  refine ⟨?_, ?_, ?_, ?_, ?_, ?_⟩
  · intro h hp
    exact Spotipy.ClientCredentials.not_expired_at_stamp_cc
      (Spotipy.ClientCredentials.construct_ok_cc h).2.2.2.2.2 hp
  · intro h hp
    simp only [Spotipy.ClientCredentials.from_client_secret] at h
    split at h
    · simp at h
    · exact Spotipy.ClientCredentials.not_expired_at_stamp_cc
        (Spotipy.ClientCredentials.construct_ok_cc h).2.2.2.2.2 hp
  · intro h hp
    exact Spotipy.ClientCredentials.not_expired_at_stamp_cc
      (Spotipy.ClientCredentials.refresh_ok_cc h).2.2.2.2.2 hp
  · intro h hp
    exact Spotipy.UserCredentials.not_expired_at_stamp_uc
      (Spotipy.UserCredentials.construct_ok_uc h).2.2.2.2.2.2.2 hp
  · intro h hp
    simp only [Spotipy.UserCredentials.from_refresh_token] at h
    split at h
    · simp at h
    · exact Spotipy.UserCredentials.not_expired_at_stamp_uc
        (Spotipy.UserCredentials.construct_ok_uc h).2.2.2.2.2.2.2 hp
  · intro h hp
    exact Spotipy.UserCredentials.not_expired_at_stamp_uc
      (Spotipy.UserCredentials.refresh_ok_uc h).2.2.2.2.2.2.2 hp

open Spotipy in
/-- C6 witness: records built at time 100 with lifetime 3600 from each of
the six acquisition paths are not expired at time 100. -/
theorem C6_fresh_record_not_expired_witness :
    cOut.is_expired 100 = false ∧ uOutC.is_expired 100 = false ∧
    uOut.is_expired 100 = false := by
  have hCC := C6_fresh_record_not_expired okBodyCC "cid" "sec" "RT1"
    ⟨200, okBodyCC⟩ 100 cOut cOut cOut cEx uOutC uOut uOut uEx
  have hUC := C6_fresh_record_not_expired okBodyUC "cid" "sec" "RT1"
    ⟨200, okBodyUC⟩ 100 cOut cOut cOut cEx uOutC uOut uOut uEx
  refine ⟨hCC.1 rfl (by decide), hUC.2.2.2.1 rfl (by decide),
    hUC.2.2.2.2.1 rfl (by decide)⟩

open Spotipy in
/-- C7: `expires_in` and `last_authorized_time` are updated together, on
every successful refresh: success installs the response lifetime and
stamps the clock with the current time, while every failure outcome
(AuthenticationError or a KeyError part-way through) leaves both fields
at their old values, so no reachable state mixes an old value of one with
a new value of the other — in the source the two assignments are adjacent
with no fallible or suspending operation between them.  Construction also
stamps `last_authorized_time` with the current time. -/
theorem C7_expiry_clock_updated_atomically
    (c : ClientCredentials) (u : UserCredentials) (resp : HttpResponse)
    (now : ℚ) (data : JsonBody) (cid cs : String)
    (c0 : ClientCredentials) (u0 : UserCredentials) :
    ((c.refresh resp now).1 = .ok () →
      resp.body.expires_in = some (c.refresh resp now).2.expires_in ∧
      (c.refresh resp now).2.last_authorized_time = now) ∧
    ((c.refresh resp now).1 ≠ .ok () →
      (c.refresh resp now).2.expires_in = c.expires_in ∧
      (c.refresh resp now).2.last_authorized_time =
        c.last_authorized_time) ∧
    ((u.refresh resp now).1 = .ok () →
      resp.body.expires_in = some (u.refresh resp now).2.expires_in ∧
      (u.refresh resp now).2.last_authorized_time = now) ∧
    ((u.refresh resp now).1 ≠ .ok () →
      (u.refresh resp now).2.expires_in = u.expires_in ∧
      (u.refresh resp now).2.last_authorized_time =
        u.last_authorized_time) ∧
    (ClientCredentials.construct data cid cs now = .ok c0 →
      c0.last_authorized_time = now) ∧
    (UserCredentials.construct data cid cs now = .ok u0 →
      u0.last_authorized_time = now) := by
  refine ⟨?_, ?_, ?_, ?_, ?_, ?_⟩
  · cases hb : resp.body.truthyError <;>
      cases ha : resp.body.access_token <;>
      cases ht : resp.body.token_type <;>
      cases he : resp.body.expires_in <;>
      simp [Spotipy.ClientCredentials.refresh, hb, ha, ht, he]
  · cases hb : resp.body.truthyError <;>
      cases ha : resp.body.access_token <;>
      cases ht : resp.body.token_type <;>
      cases he : resp.body.expires_in <;>
      simp [Spotipy.ClientCredentials.refresh, hb, ha, ht, he]
  · cases hb : resp.body.truthyError <;>
      cases ha : resp.body.access_token <;>
      cases ht : resp.body.token_type <;>
      cases hs : resp.body.scope <;>
      cases he : resp.body.expires_in <;>
      simp [Spotipy.UserCredentials.refresh, hb, ha, ht, hs, he]
  · cases hb : resp.body.truthyError <;>
      cases ha : resp.body.access_token <;>
      cases ht : resp.body.token_type <;>
      cases hs : resp.body.scope <;>
      cases he : resp.body.expires_in <;>
      simp [Spotipy.UserCredentials.refresh, hb, ha, ht, hs, he]
  · intro h
    exact (Spotipy.ClientCredentials.construct_ok_cc h).2.2.2.2.2
  · intro h
    exact (Spotipy.UserCredentials.construct_ok_uc h).2.2.2.2.2.2.2

open Spotipy in
/-- C7 witness: a concrete successful refresh installs lifetime and clock
together, a concrete failed refresh leaves both untouched, and concrete
constructions at time 100 stamp the clock. -/
theorem C7_expiry_clock_updated_atomically_witness :
    (okBodyCC.expires_in =
        some (ClientCredentials.refresh cEx ⟨200, okBodyCC⟩ 100).2.expires_in ∧
      (ClientCredentials.refresh cEx ⟨200, okBodyCC⟩ 100).2.last_authorized_time =
        100) ∧
    ((ClientCredentials.refresh cEx ⟨400, errBody⟩ 100).2.expires_in =
        cEx.expires_in ∧
      (ClientCredentials.refresh cEx ⟨400, errBody⟩ 100).2.last_authorized_time =
        cEx.last_authorized_time) ∧
    (okBodyUC.expires_in =
        some (UserCredentials.refresh uEx ⟨200, okBodyUC⟩ 100).2.expires_in ∧
      (UserCredentials.refresh uEx ⟨200, okBodyUC⟩ 100).2.last_authorized_time =
        100) ∧
    ((UserCredentials.refresh uEx ⟨400, errBody⟩ 100).2.expires_in =
        uEx.expires_in ∧
      (UserCredentials.refresh uEx ⟨400, errBody⟩ 100).2.last_authorized_time =
        uEx.last_authorized_time) ∧
    cOut.last_authorized_time = 100 ∧ uOutC.last_authorized_time = 100 := by
  have hOkCC := C7_expiry_clock_updated_atomically cEx uEx ⟨200, okBodyCC⟩ 100
    okBodyCC "cid" "sec" cOut uOutC
  have hOkUC := C7_expiry_clock_updated_atomically cEx uEx ⟨200, okBodyUC⟩ 100
    okBodyUC "cid" "sec" cOut uOutC
  have hErr := C7_expiry_clock_updated_atomically cEx uEx ⟨400, errBody⟩ 100
    okBodyUC "cid" "sec" cOut uOutC
  exact ⟨hOkCC.1 rfl,
    hErr.2.1 (fun hcon => Except.noConfusion hcon),
    hOkUC.2.2.1 rfl,
    hErr.2.2.2.1 (fun hcon => Except.noConfusion hcon),
    hOkCC.2.2.2.2.1 rfl, hOkUC.2.2.2.2.2 rfl⟩

open Spotipy in
/-- C8 counterexample: constructing from a payload with no fields fails,
but with `KeyError "access_token"` from the unchecked `data[...]` access,
not with ValidationError as the claim states. -/
theorem C8_construct_fails_with_keyerror_not_validationerror :
    ClientCredentials.construct {} "cid" "sec" 0 =
      .error (.keyError "access_token") ∧
    ClientCredentials.construct {} "cid" "sec" 0 ≠
      .error PyError.validationError ∧
    UserCredentials.construct {} "cid" "sec" 0 =
      .error (.keyError "access_token") ∧
    UserCredentials.construct {} "cid" "sec" 0 ≠
      .error PyError.validationError := by
  refine ⟨rfl, ?_, rfl, ?_⟩
  · simp [Spotipy.ClientCredentials.construct]
  · simp [Spotipy.UserCredentials.construct]

open Spotipy in
/-- C8 (amended): for every payload missing a required field
(access_token, token_type or expires_in for ClientCredentials;
additionally scope for UserCredentials), construction fails — with a
KeyError naming a missing required field, not with ValidationError. -/
theorem C8_construct_missing_required_field_fails
    (data : JsonBody) (cid cs : String) (now : ℚ) :
    ((data.access_token = none ∨ data.token_type = none ∨
        data.expires_in = none) →
      ∃ k, ClientCredentials.construct data cid cs now =
        .error (.keyError k)) ∧
    ((data.access_token = none ∨ data.token_type = none ∨
        data.expires_in = none ∨ data.scope = none) →
      ∃ k, UserCredentials.construct data cid cs now =
        .error (.keyError k)) := by
  constructor
  · intro h
    cases ha : data.access_token <;>
      cases ht : data.token_type <;>
      cases he : data.expires_in <;>
      simp [Spotipy.ClientCredentials.construct, ha, ht, he] <;>
      simp [ha, ht, he] at h
  · intro h
    cases ha : data.access_token <;>
      cases ht : data.token_type <;>
      cases he : data.expires_in <;>
      cases hs : data.scope <;>
      simp [Spotipy.UserCredentials.construct, ha, ht, he, hs] <;>
      simp [ha, ht, he, hs] at h

open Spotipy in
/-- C8 (amended) witness: the empty payload is missing every required
field, and both constructions fail with a KeyError. -/
theorem C8_construct_missing_required_field_fails_witness :
    (∃ k, ClientCredentials.construct {} "cid" "sec" 0 =
      .error (.keyError k)) ∧
    (∃ k, UserCredentials.construct {} "cid" "sec" 0 =
      .error (.keyError k)) :=
  ⟨(C8_construct_missing_required_field_fails {} "cid" "sec" 0).1
      (Or.inl rfl),
    (C8_construct_missing_required_field_fails {} "cid" "sec" 0).2
      (Or.inl rfl)⟩

open Spotipy in
/-- C9: a record constructed with `expires_in <= 0` is expired at the
construction instant and at every later time: the comparison is `>=`, so
a zero or negative lifetime is expired from the start. -/
theorem C9_nonpositive_lifetime_expired_from_start
    (data : JsonBody) (cid cs : String) (now t : ℚ)
    (c : ClientCredentials) (u : UserCredentials) :
    (ClientCredentials.construct data cid cs now = .ok c →
      c.expires_in ≤ 0 → now ≤ t → c.is_expired t = true) ∧
    (UserCredentials.construct data cid cs now = .ok u →
      u.expires_in ≤ 0 → now ≤ t → u.is_expired t = true) := by
  constructor
  · intro h he hl
    have hlat := (Spotipy.ClientCredentials.construct_ok_cc h).2.2.2.2.2
    have he' : (c.expires_in : ℚ) ≤ 0 := by exact_mod_cast he
    simp only [Spotipy.ClientCredentials.is_expired, hlat, ge_iff_le,
      decide_eq_true_eq]
    linarith
  · intro h he hl
    have hlat := (Spotipy.UserCredentials.construct_ok_uc h).2.2.2.2.2.2.2
    have he' : (u.expires_in : ℚ) ≤ 0 := by exact_mod_cast he
    simp only [Spotipy.UserCredentials.is_expired, hlat, ge_iff_le,
      decide_eq_true_eq]
    linarith

open Spotipy in
/-- C9 witness: records constructed at time 100 with lifetime 0 are
already expired at time 100. -/
theorem C9_nonpositive_lifetime_expired_from_start_witness :
    cZero.is_expired 100 = true ∧ uZero.is_expired 100 = true := by
  have h := C9_nonpositive_lifetime_expired_from_start zeroBodyUC "cid"
    "sec" 100 100 cZero uZero
  exact ⟨h.1 rfl (by decide) (by norm_num), h.2 rfl (by decide) (by norm_num)⟩

open Spotipy in
/-- C10: `client_id` and `client_secret` are written once, from the
constructor arguments, and are preserved by every `refresh` outcome
(success, AuthenticationError, or a KeyError part-way through the
mutation sequence); `is_expired` is pure and touches nothing. -/
theorem C10_client_identifiers_written_only_at_construction
    (data : JsonBody) (cid cs : String) (now : ℚ)
    (c c0 : ClientCredentials) (u u0 : UserCredentials)
    (resp : HttpResponse) :
    (ClientCredentials.construct data cid cs now = .ok c0 →
      c0.client_id = cid ∧ c0.client_secret = cs) ∧
    (UserCredentials.construct data cid cs now = .ok u0 →
      u0.client_id = cid ∧ u0.client_secret = cs) ∧
    ((c.refresh resp now).2.client_id = c.client_id ∧
      (c.refresh resp now).2.client_secret = c.client_secret) ∧
    ((u.refresh resp now).2.client_id = u.client_id ∧
      (u.refresh resp now).2.client_secret = u.client_secret) := by
  refine ⟨?_, ?_, ?_, ?_⟩
  · intro h
    have hc := Spotipy.ClientCredentials.construct_ok_cc h
    exact ⟨hc.2.2.2.1, hc.2.2.2.2.1⟩
  · intro h
    have hu := Spotipy.UserCredentials.construct_ok_uc h
    exact ⟨hu.2.2.2.2.2.1, hu.2.2.2.2.2.2.1⟩
  · cases hb : resp.body.truthyError <;>
      cases ha : resp.body.access_token <;>
      cases ht : resp.body.token_type <;>
      cases he : resp.body.expires_in <;>
      simp [Spotipy.ClientCredentials.refresh, hb, ha, ht, he]
  · cases hb : resp.body.truthyError <;>
      cases ha : resp.body.access_token <;>
      cases ht : resp.body.token_type <;>
      cases hs : resp.body.scope <;>
      cases he : resp.body.expires_in <;>
      simp [Spotipy.UserCredentials.refresh, hb, ha, ht, hs, he]

open Spotipy in
/-- C10 witness: concrete constructions store the supplied identifiers,
and a concrete refresh (error outcome included) preserves them. -/
theorem C10_client_identifiers_written_only_at_construction_witness :
    (cOut.client_id = "cid" ∧ cOut.client_secret = "sec") ∧
    (uOutC.client_id = "cid" ∧ uOutC.client_secret = "sec") ∧
    ((ClientCredentials.refresh cEx ⟨400, errBody⟩ 100).2.client_id =
        cEx.client_id ∧
      (ClientCredentials.refresh cEx ⟨400, errBody⟩ 100).2.client_secret =
        cEx.client_secret) ∧
    ((UserCredentials.refresh uEx ⟨400, errBody⟩ 100).2.client_id =
        uEx.client_id ∧
      (UserCredentials.refresh uEx ⟨400, errBody⟩ 100).2.client_secret =
        uEx.client_secret) := by
  have hCC := C10_client_identifiers_written_only_at_construction okBodyCC
    "cid" "sec" 100 cEx cOut uEx uOutC ⟨400, errBody⟩
  have hUC := C10_client_identifiers_written_only_at_construction okBodyUC
    "cid" "sec" 100 cEx cOut uEx uOutC ⟨400, errBody⟩
  exact ⟨hCC.1 rfl, hUC.2.1 rfl, hCC.2.2.1, hCC.2.2.2⟩
